import Mathlib

/-!
Shallow embedding of the PresentationRecorder component
(src/unnamed/part_001, the fuller of the two observed variants; part_000
agrees on everything the claims below touch except where noted).

The component is single-threaded and event-driven.  We model its mutable
refs and React state as one record, and each handler or callback of the
source as a state-transition function.  Asynchronous results (device
acquisition, encoder construction, fragment delivery, the encoder's
finalize callback, timer ticks) are modelled as explicit events carrying
the data the platform would supply.
-/

namespace PresentationRecorder

/-- MediaRecorder.state is one of inactive, recording, paused; the source
only ever observes it against 'inactive'. -/
inductive RecorderRState
  | inactive
  | recording
  | paused
deriving DecidableEq

/-- The MediaRecorder object created in startRecording: its lifecycle state
and the mimeType negotiated at construction. -/
structure MediaRecorderObj where
  rstate : RecorderRState
  mimeType : String
deriving DecidableEq

/-- A binary Blob: its byte content (bytes as Nat) and its declared type.
Blob.size of the source is the length of data. -/
structure Blob where
  data : List Nat
  type : String
deriving DecidableEq

/-- The `status` strings assigned by the source, one constructor per
assignment site.  recordingComplete carries the blob byte size from which
the displayed MB figure is derived. -/
inductive StatusMsg
  | initialPrompt
  | clickToStartRecording
  | failedAccessCamera
  | cameraNotActive
  | recordingInProgress
  | recordingComplete (sizeBytes : Nat)
  | failedStartRecording (msg : String)
  | videoDownloaded
deriving DecidableEq

/-- The component's refs and state hooks, one field per ref/useState of the
source.  mediaStream is the CaptureSession handle (an id standing for the
MediaStream); timerInterval is the setInterval handle. -/
structure ComponentState where
  mediaStream : Option Nat
  mediaRecorder : Option MediaRecorderObj
  recordedChunks : List (List Nat)
  timerInterval : Option Unit
  recordingStartTime : Option Nat
  isCameraActive : Bool
  isRecording : Bool
  recordedBlob : Option Blob
  status : StatusMsg
  cameraError : String
  timer : String
deriving DecidableEq

/-- The initial values of the useState hooks and refs. -/
def initState : ComponentState :=
  { mediaStream := none
    mediaRecorder := none
    recordedChunks := []
    timerInterval := none
    recordingStartTime := none
    isCameraActive := false
    isRecording := false
    recordedBlob := none
    status := .initialPrompt
    cameraError := ""
    timer := "00:00" }

/-- Result of the asynchronous getUserMedia call: a stream handle on
success, the platform error message on failure. -/
inductive AcquireResult
  | ok (handle : Nat)
  | err (msg : String)
deriving DecidableEq

/-- Whether a recorder object is present and not inactive. -/
def recActive : Option MediaRecorderObj → Bool
  | some r => r.rstate != RecorderRState.inactive
  | none => false

/-- The guard of stopRecording: mediaRecorderRef.current is non-null and
its state is not 'inactive'.  This is also what "a RecordingSession is
active" means for the component. -/
def recorderActive (s : ComponentState) : Bool :=
  recActive s.mediaRecorder

/-- stopCamera: if a stream is held, stop its tracks, clear the ref and
the camera-active flag; otherwise do nothing.  (Binding/unbinding the
preview surface is presentation and not modelled.) -/
def stopCamera (s : ComponentState) : ComponentState :=
  if s.mediaStream.isSome then
    { s with mediaStream := none, isCameraActive := false }
  else s

/-- stopTimer: clear the interval if one is set; the stored start instant
is not touched by this function in the source. -/
def stopTimer (s : ComponentState) : ComponentState :=
  if s.timerInterval.isSome then { s with timerInterval := none } else s

/-- stopRecording: if the recorder exists and is not inactive, stop it
(its state becomes inactive; the finalize callback fires later as a
separate event), clear the recording flag and stop the timer. -/
def stopRecording (s : ComponentState) : ComponentState :=
  if recorderActive s then
    stopTimer { s with
      mediaRecorder := s.mediaRecorder.map fun r => { r with rstate := .inactive }
      isRecording := false }
  else s

/-- startCamera, at the point the getUserMedia promise settles: on success
store the stream, set the camera flag, clear the error; on failure set the
error banner to "Camera Error: " followed by the platform message. -/
def startCamera (res : AcquireResult) (s : ComponentState) : ComponentState :=
  match res with
  | .ok handle =>
      { s with mediaStream := some handle
               isCameraActive := true
               cameraError := ""
               status := .clickToStartRecording }
  | .err msg =>
      { s with cameraError := "Camera Error: " ++ msg
               status := .failedAccessCamera }

/-- The capability probe of startRecording: prefer vp9 in webm, fall back
to plain webm. -/
def mimeFor (vp9Supported : Bool) : String :=
  if vp9Supported then "video/webm; codecs=vp9" else "video/webm"

/-- startTimer: record the current instant as start and install the
repeating 1-second interval.  Note it does not republish the label. -/
def startTimer (now : Nat) (s : ComponentState) : ComponentState :=
  { s with recordingStartTime := some now, timerInterval := some () }

/-- startRecording.  Guard: camera flag set and stream present, else only
the status changes.  Then the chunk buffer and previous blob are cleared
unconditionally; MediaRecorder construction may throw (ctorFail carries
the message), in which case only the status changes further; on success
the new recorder starts, the flag and timer are set. -/
def startRecording (vp9Supported : Bool) (ctorFail : Option String)
    (now : Nat) (s : ComponentState) : ComponentState :=
  if !s.isCameraActive || s.mediaStream.isNone then
    { s with status := .cameraNotActive }
  else
    let s1 := { s with recordedChunks := ([] : List (List Nat)), recordedBlob := none }
    match ctorFail with
    | some msg => { s1 with status := .failedStartRecording msg }
    | none =>
        startTimer now
          { s1 with
            mediaRecorder := some ⟨.recording, mimeFor vp9Supported⟩
            isRecording := true
            status := .recordingInProgress }

/-- The ondataavailable handler: append the fragment to the chunk buffer
iff it is non-empty. -/
def ondataavailable (d : List Nat) (s : ComponentState) : ComponentState :=
  if 0 < d.length then
    { s with recordedChunks := s.recordedChunks ++ [d] }
  else s

/-- A sequence of fragment deliveries in arrival order. -/
def deliverAll (frags : List (List Nat)) (s : ComponentState) : ComponentState :=
  frags.foldl (fun t d => ondataavailable d t) s

/-- The onstop (finalize) callback: concatenate the accumulated chunks
into a Blob tagged with the mimeType the closure captured at
startRecording, publish it and the completion status. -/
def onstopHandler (mt : String) (s : ComponentState) : ComponentState :=
  let b : Blob := ⟨s.recordedChunks.flatten, mt⟩
  { s with recordedBlob := some b, status := .recordingComplete b.data.length }

/-- Pad a number to two digits, as String(n).padStart(2, '0') does. -/
def pad2 (n : Nat) : String :=
  if n < 10 then "0" ++ toString n else toString n

/-- The MM:SS label for a whole-second elapsed value: minutes unbounded,
both parts zero-padded to two digits. -/
def formatTimer (elapsed : Nat) : String :=
  pad2 (elapsed / 60) ++ ":" ++ pad2 (elapsed % 60)

/-- The interval callback installed by startTimer: if the start instant is
unset do nothing, otherwise publish the formatted floor of the elapsed
seconds since start. -/
def timerTick (now : Nat) (s : ComponentState) : ComponentState :=
  match s.recordingStartTime with
  | none => s
  | some st => { s with timer := formatTimer ((now - st) / 1000) }

/-- The filename sanitization: the ISO timestamp with every colon and dot
replaced by a dash. -/
def sanitizeTimestamp (t : String) : String :=
  t.map fun c => if c == ':' || c == '.' then '-' else c

/-- The download filename pattern of the source. -/
def downloadFilename (isoTimestamp : String) : String :=
  "presentation_" ++ sanitizeTimestamp isoTimestamp ++ ".webm"

/-- downloadVideo: with no blob, return doing nothing; otherwise produce
the named resource and set the status.  Returns the filename offered for
download alongside the successor state. -/
def downloadVideo (isoTimestamp : String) (s : ComponentState) :
    Option String × ComponentState :=
  match s.recordedBlob with
  | none => (none, s)
  | some _ => (some (downloadFilename isoTimestamp),
               { s with status := .videoDownloaded })

/-- The useEffect cleanup of part_001: stopRecording then stopCamera. -/
def cleanup (s : ComponentState) : ComponentState :=
  stopCamera (stopRecording s)

/-- The observable SessionState of the spec, as the projection the
component's rendering realizes: the recording flag dominates, then the
camera flag, with Recorded distinguished by an Artifact being present.
The error banner is the separate errorMessage field (cameraError). -/
inductive SessionState
  | Idle
  | CameraReady
  | Recording
  | Recorded
deriving DecidableEq

/-- Project the component state onto the spec's SessionState. -/
def sessionState (s : ComponentState) : SessionState :=
  if s.isRecording then .Recording
  else if s.isCameraActive then
    (if s.recordedBlob.isSome then .Recorded else .CameraReady)
  else .Idle

/-- The hasArtifact field of the presentation snapshot. -/
def hasArtifact (s : ComponentState) : Bool :=
  s.recordedBlob.isSome

/-- The states the component can actually be in: the initial render
followed by any sequence of handler invocations and platform callbacks,
each platform callback guarded by the condition under which the platform
delivers it (a tick only while the interval is installed; onstop only for
an existing recorder, carrying the mimeType its closure captured). -/
inductive Reachable : ComponentState → Prop
  | init : Reachable initState
  | camRes (res : AcquireResult) {s : ComponentState} :
      Reachable s → Reachable (startCamera res s)
  | stopCam {s : ComponentState} : Reachable s → Reachable (stopCamera s)
  | startRec (vp9 : Bool) (ctorFail : Option String) (now : Nat)
      {s : ComponentState} : Reachable s →
      Reachable (startRecording vp9 ctorFail now s)
  | dataAvail (d : List Nat) {s : ComponentState} :
      Reachable s → Reachable (ondataavailable d s)
  | stopRec {s : ComponentState} : Reachable s → Reachable (stopRecording s)
  | tick (now : Nat) {s : ComponentState} : Reachable s →
      s.timerInterval.isSome = true → Reachable (timerTick now s)
  | onstop {s : ComponentState} {r : MediaRecorderObj} : Reachable s →
      s.mediaRecorder = some r → Reachable (onstopHandler r.mimeType s)
  | download (iso : String) {s : ComponentState} :
      Reachable s → Reachable ((downloadVideo iso s).2)
  | teardown {s : ComponentState} : Reachable s → Reachable (cleanup s)

/-- Structural invariant of reachable states: the camera flag implies a
held stream, an installed tick interval implies an active recorder, and
the recording flag implies an active recorder. -/
def InvProp (s : ComponentState) : Prop :=
  (s.isCameraActive = true → s.mediaStream.isSome = true) ∧
  (s.timerInterval.isSome = true → recorderActive s = true) ∧
  (s.isRecording = true → recorderActive s = true)

lemma recActive_stopped (x : Option MediaRecorderObj) :
    recActive (x.map fun r => { r with rstate := .inactive }) = false := by
  cases x <;> rfl

lemma stopTimer_eq (s : ComponentState) :
    stopTimer s = { s with timerInterval := none } := by
  unfold stopTimer
  split
  · rfl
  · cases s
    simp_all [Option.isSome]
    split at * <;> simp_all

lemma stopRecording_eq_active {s : ComponentState}
    (h : recorderActive s = true) :
    stopRecording s =
      { s with
        mediaRecorder := s.mediaRecorder.map fun r => { r with rstate := .inactive }
        isRecording := false
        timerInterval := none } := by
  unfold stopRecording
  rw [if_pos h, stopTimer_eq]

lemma stopRecording_eq_inactive {s : ComponentState}
    (h : recorderActive s = false) :
    stopRecording s = s := by
  unfold stopRecording
  rw [if_neg (by simp [h])]

lemma stopCamera_eq_some {s : ComponentState}
    (h : s.mediaStream.isSome = true) :
    stopCamera s = { s with mediaStream := none, isCameraActive := false } := by
  unfold stopCamera
  rw [if_pos h]

lemma stopCamera_eq_none {s : ComponentState}
    (h : s.mediaStream = none) :
    stopCamera s = s := by
  unfold stopCamera
  rw [if_neg (by simp [h])]

lemma deliverAll_eq (frags : List (List Nat)) (s : ComponentState) :
    deliverAll frags s =
      { s with recordedChunks :=
          s.recordedChunks ++ frags.filter fun f => decide (0 < f.length) } := by
  induction frags generalizing s with
  | nil =>
      cases s
      simp [deliverAll]
  | cons d frags ih =>
      show deliverAll frags (ondataavailable d s) = _
      rw [ih]
      unfold ondataavailable
      by_cases hd : 0 < d.length
      · rw [if_pos hd]
        simp [List.filter_cons, hd]
      · rw [if_neg hd]
        simp [List.filter_cons, hd]

lemma inv_stopCamera {s : ComponentState} (h : InvProp s) :
    InvProp (stopCamera s) := by
  obtain ⟨h1, h2, h3⟩ := h
  by_cases hm : s.mediaStream.isSome = true
  · rw [stopCamera_eq_some hm]
    exact ⟨by simp, h2, h3⟩
  · rw [stopCamera_eq_none (by simpa [Option.isSome_iff_exists, Option.eq_none_iff_forall_not_mem] using
      Option.not_isSome_iff_eq_none.mp (by simpa using hm))]
    exact ⟨h1, h2, h3⟩

lemma inv_stopRecording {s : ComponentState} (h : InvProp s) :
    InvProp (stopRecording s) := by
  obtain ⟨h1, h2, h3⟩ := h
  by_cases hr : recorderActive s = true
  · rw [stopRecording_eq_active hr]
    refine ⟨h1, ?_, ?_⟩ <;> simp
  · rw [stopRecording_eq_inactive (by simpa using hr)]
    exact ⟨h1, h2, h3⟩

lemma inv_cleanup {s : ComponentState} (h : InvProp s) :
    InvProp (cleanup s) :=
  inv_stopCamera (inv_stopRecording h)

/-- Every reachable state satisfies the structural invariant. -/
lemma reachable_inv {s : ComponentState} (h : Reachable s) : InvProp s := by
  induction h with
  | init => exact ⟨by simp [initState], by simp [initState], by simp [initState]⟩
  | camRes res hr ih =>
      obtain ⟨h1, h2, h3⟩ := ih
      cases res with
      | ok handle => exact ⟨by simp [startCamera], by simpa [startCamera, recorderActive] using h2,
          by simpa [startCamera, recorderActive] using h3⟩
      | err msg => exact ⟨by simpa [startCamera] using h1,
          by simpa [startCamera, recorderActive] using h2,
          by simpa [startCamera, recorderActive] using h3⟩
  | stopCam hr ih => exact inv_stopCamera ih
  | startRec vp9 ctorFail now hr ih =>
      obtain ⟨h1, h2, h3⟩ := ih
      unfold startRecording
      split
      · exact ⟨by simpa using h1, by simpa [recorderActive] using h2,
          by simpa [recorderActive] using h3⟩
      · next hguard =>
        cases ctorFail with
        | some msg => exact ⟨by simpa using h1, by simpa [recorderActive] using h2,
            by simpa [recorderActive] using h3⟩
        | none =>
            refine ⟨?_, ?_, ?_⟩
            · intro _
              simp at hguard
              simp [startTimer]
              exact Option.ne_none_iff_isSome.mp hguard.2
            · intro _
              simp [startTimer, recorderActive, recActive]
            · intro _
              simp [startTimer, recorderActive, recActive]
  | dataAvail d hr ih =>
      obtain ⟨h1, h2, h3⟩ := ih
      unfold ondataavailable
      split
      · exact ⟨by simpa using h1, by simpa [recorderActive] using h2,
          by simpa [recorderActive] using h3⟩
      · exact ⟨h1, h2, h3⟩
  | stopRec hr ih => exact inv_stopRecording ih
  | tick now hr hg ih =>
      obtain ⟨h1, h2, h3⟩ := ih
      unfold timerTick
      split
      · exact ⟨h1, h2, h3⟩
      · exact ⟨by simpa using h1, by simpa [recorderActive] using h2,
          by simpa [recorderActive] using h3⟩
  | onstop hr hmr ih =>
      obtain ⟨h1, h2, h3⟩ := ih
      exact ⟨by simpa [onstopHandler] using h1,
        by simpa [onstopHandler, recorderActive] using h2,
        by simpa [onstopHandler, recorderActive] using h3⟩
  | download iso hr ih =>
      obtain ⟨h1, h2, h3⟩ := ih
      unfold downloadVideo
      split
      · exact ⟨h1, h2, h3⟩
      · exact ⟨by simpa using h1, by simpa [recorderActive] using h2,
          by simpa [recorderActive] using h3⟩
  | teardown hr ih => exact inv_cleanup ih

lemma startRecording_success (vp9 : Bool) (now : Nat) {s : ComponentState}
    (hc : s.isCameraActive = true) (hs : s.mediaStream.isSome = true) :
    startRecording vp9 none now s =
      { s with recordedChunks := []
               recordedBlob := none
               mediaRecorder := some ⟨.recording, mimeFor vp9⟩
               isRecording := true
               status := .recordingInProgress
               recordingStartTime := some now
               timerInterval := some () } := by
  unfold startRecording
  rw [if_neg ?_]
  · rfl
  · simp [hc]
    exact Option.ne_none_iff_isSome.mpr hs

lemma stopCamera_mediaStream (s : ComponentState) :
    (stopCamera s).mediaStream = none := by
  unfold stopCamera
  split
  · rfl
  · next h => exact Option.not_isSome_iff_eq_none.mp h

/-- C1: over a start / deliver-fragments / stop trace with no intervening
CaptureSession change, the finalized Artifact's bytes are exactly the
concatenation, in delivery order, of the non-empty fragments, and its byte
length is the sum of their lengths — no gaps, no drops beyond empty
fragments, no duplicates. -/
theorem artifact_completeness
    (vp9 : Bool) (now : Nat) (frags : List (List Nat)) (s : ComponentState)
    (hc : s.isCameraActive = true) (hs : s.mediaStream.isSome = true) :
    ∃ b : Blob,
      (onstopHandler (mimeFor vp9)
        (stopRecording (deliverAll frags
          (startRecording vp9 none now s)))).recordedBlob = some b ∧
      b.data = (frags.filter fun f => decide (0 < f.length)).flatten ∧
      b.data.length =
        ((frags.filter fun f => decide (0 < f.length)).map List.length).sum := by
  rw [startRecording_success vp9 now hc hs, deliverAll_eq,
    stopRecording_eq_active (by rfl)]
  refine ⟨⟨(frags.filter fun f => decide (0 < f.length)).flatten, mimeFor vp9⟩,
    by simp [onstopHandler], rfl, ?_⟩
  simp [List.length_flatten]

/-- C1 witness: Scenario A's fragment sizes 10, 0, 20, 5, 0 delivered
after a successful camera start and recording start. -/
theorem artifact_completeness_witness :
    ∃ b : Blob,
      (onstopHandler (mimeFor true)
        (stopRecording (deliverAll
          [List.replicate 10 1, [], List.replicate 20 2, List.replicate 5 3, []]
          (startRecording true none 0
            (startCamera (.ok 0) initState))))).recordedBlob = some b ∧
      b.data = ([List.replicate 10 1, [], List.replicate 20 2,
          List.replicate 5 3, []].filter fun f => decide (0 < f.length)).flatten ∧
      b.data.length = (([List.replicate 10 1, [], List.replicate 20 2,
          List.replicate 5 3, []].filter fun f => decide (0 < f.length)).map
            List.length).sum :=
  artifact_completeness true 0
    [List.replicate 10 1, [], List.replicate 20 2, List.replicate 5 3, []]
    (startCamera (.ok 0) initState) rfl rfl

/-- C2: from every reachable state, the cleanup (teardown) ends with no
held stream, no alive recorder, the recording flag clear and the tick
interval cancelled, projecting to Idle; it is idempotent; and it is the
composition of stopping the recording (encoder stop, then timer stop)
followed by releasing the camera. -/
theorem teardown_idle_idempotent (s : ComponentState) (h : Reachable s) :
    sessionState (cleanup s) = .Idle ∧
    (cleanup s).mediaStream = none ∧
    recorderActive (cleanup s) = false ∧
    (cleanup s).isRecording = false ∧
    (cleanup s).timerInterval = none ∧
    cleanup (cleanup s) = cleanup s ∧
    cleanup s = stopCamera (stopRecording s) := by
  obtain ⟨h1, h2, h3⟩ := reachable_inv h
  have hts : (stopRecording s).mediaStream = s.mediaStream := by
    by_cases hr : recorderActive s = true
    · rw [stopRecording_eq_active hr]
    · rw [stopRecording_eq_inactive (by simpa using hr)]
  have htc : (stopRecording s).isCameraActive = s.isCameraActive := by
    by_cases hr : recorderActive s = true
    · rw [stopRecording_eq_active hr]
    · rw [stopRecording_eq_inactive (by simpa using hr)]
  have htr : recorderActive (stopRecording s) = false := by
    by_cases hr : recorderActive s = true
    · rw [stopRecording_eq_active hr]
      exact recActive_stopped s.mediaRecorder
    · rw [stopRecording_eq_inactive (by simpa using hr)]
      simpa using hr
  have htrec : (stopRecording s).isRecording = false := by
    by_cases hr : recorderActive s = true
    · rw [stopRecording_eq_active hr]
    · rw [stopRecording_eq_inactive (by simpa using hr)]
      by_contra hx
      simp only [Bool.not_eq_false] at hx
      exact hr (h3 hx)
  have htt : (stopRecording s).timerInterval = none := by
    by_cases hr : recorderActive s = true
    · rw [stopRecording_eq_active hr]
    · rw [stopRecording_eq_inactive (by simpa using hr)]
      by_contra hx
      have hsome : s.timerInterval.isSome = true := by
        cases hti : s.timerInterval
        · exact absurd hti hx
        · simp
      exact hr (h2 hsome)
  have hpre : (stopCamera (stopRecording s)).mediaRecorder =
        (stopRecording s).mediaRecorder ∧
      (stopCamera (stopRecording s)).isRecording = (stopRecording s).isRecording ∧
      (stopCamera (stopRecording s)).timerInterval =
        (stopRecording s).timerInterval := by
    unfold stopCamera
    split <;> simp
  have hum : (stopCamera (stopRecording s)).mediaStream = none :=
    stopCamera_mediaStream (stopRecording s)
  have huc : (stopCamera (stopRecording s)).isCameraActive = false := by
    by_cases hm : (stopRecording s).mediaStream.isSome = true
    · rw [stopCamera_eq_some hm]
    · have hnone : (stopRecording s).mediaStream = none :=
        Option.not_isSome_iff_eq_none.mp hm
      rw [stopCamera_eq_none hnone, htc]
      by_contra hx
      simp only [Bool.not_eq_false] at hx
      have h5 := h1 hx
      rw [← hts, hnone] at h5
      simp at h5
  have hurec : (stopCamera (stopRecording s)).isRecording = false := by
    rw [hpre.2.1]; exact htrec
  have huti : (stopCamera (stopRecording s)).timerInterval = none := by
    rw [hpre.2.2]; exact htt
  have hurecA : recorderActive (stopCamera (stopRecording s)) = false := by
    unfold recorderActive
    rw [hpre.1]
    exact htr
  refine ⟨?_, hum, hurecA, hurec, huti, ?_, rfl⟩
  · unfold sessionState cleanup
    rw [if_neg (by simp [hurec]), if_neg (by simp [huc])]
  · show stopCamera (stopRecording (stopCamera (stopRecording s))) = _
    rw [stopRecording_eq_inactive hurecA, stopCamera_eq_none hum]
    rfl

/-- C2 witness: teardown applied to the reachable state in which a
recording is running. -/
theorem teardown_idle_idempotent_witness :
    sessionState (cleanup (startRecording true none 0
      (startCamera (.ok 0) initState))) = .Idle ∧
    (cleanup (startRecording true none 0
      (startCamera (.ok 0) initState))).mediaStream = none ∧
    recorderActive (cleanup (startRecording true none 0
      (startCamera (.ok 0) initState))) = false ∧
    (cleanup (startRecording true none 0
      (startCamera (.ok 0) initState))).isRecording = false ∧
    (cleanup (startRecording true none 0
      (startCamera (.ok 0) initState))).timerInterval = none ∧
    cleanup (cleanup (startRecording true none 0
      (startCamera (.ok 0) initState))) =
      cleanup (startRecording true none 0 (startCamera (.ok 0) initState)) ∧
    cleanup (startRecording true none 0 (startCamera (.ok 0) initState)) =
      stopCamera (stopRecording (startRecording true none 0
        (startCamera (.ok 0) initState))) :=
  teardown_idle_idempotent _
    (Reachable.startRec true none 0 (Reachable.camRes (.ok 0) Reachable.init))

/-- C3: with no active RecordingSession (no recorder object, or one whose
state is inactive), stopRecording returns the state unchanged: the
projected SessionState and every piece of session data — stream, chunk
buffer, Artifact — are untouched and nothing is raised. -/
theorem stop_noop_when_no_recording (s : ComponentState)
    (h : recorderActive s = false) : stopRecording s = s :=
  stopRecording_eq_inactive h

/-- C3 witness: stopRecording on the initial state, where no recorder
exists. -/
theorem stop_noop_when_no_recording_witness :
    stopRecording initState = initState :=
  stop_noop_when_no_recording initState rfl

/-- C4: when device acquisition fails from Idle, no CaptureSession is
created (the stream ref is unchanged, the camera flag too), the projected
state stays Idle, and the error banner is the string "Camera Error: "
followed by the underlying platform message. -/
theorem camera_failure_remains_idle (s : ComponentState) (msg : String)
    (h : sessionState s = .Idle) :
    (startCamera (.err msg) s).mediaStream = s.mediaStream ∧
    sessionState (startCamera (.err msg) s) = .Idle ∧
    (startCamera (.err msg) s).cameraError = "Camera Error: " ++ msg ∧
    (startCamera (.err msg) s).isCameraActive = s.isCameraActive := by
  unfold sessionState at h
  by_cases h1 : s.isRecording = true
  · rw [if_pos h1] at h
    simp at h
  · rw [if_neg h1] at h
    by_cases h2 : s.isCameraActive = true
    · rw [if_pos h2] at h
      split at h <;> simp at h
    · refine ⟨rfl, ?_, rfl, rfl⟩
      unfold sessionState
      rw [if_neg (by simpa [startCamera] using h1),
        if_neg (by simpa [startCamera] using h2)]

/-- C4 witness: Scenario B — acquisition fails with "Permission denied"
from the initial state. -/
theorem camera_failure_remains_idle_witness :
    (startCamera (.err "Permission denied") initState).mediaStream =
      initState.mediaStream ∧
    sessionState (startCamera (.err "Permission denied") initState) = .Idle ∧
    (startCamera (.err "Permission denied") initState).cameraError =
      "Camera Error: Permission denied" ∧
    (startCamera (.err "Permission denied") initState).isCameraActive =
      initState.isCameraActive := by
  obtain ⟨a, b, c, d⟩ :=
    camera_failure_remains_idle initState "Permission denied" rfl
  exact ⟨a, b, by rw [c]; rfl, d⟩

/-- C5 counterexample: the label is not "00:00" immediately after the
tracker starts.  Run a first recording whose last tick left "05:23", stop
it, and start again: right after the new start the published label is
still "05:23", because startTimer resets only the start instant, never the
label. -/
theorem timer_label_carryover_counterexample :
    (startRecording true none 400000
      (stopRecording (timerTick 323000
        (startRecording true none 0
          (startCamera (.ok 0) initState))))).timer = "05:23" ∧
    ("05:23" : String) ≠ "00:00" := by
  constructor
  · decide
  · decide

/-- C5 amended: startTimer resets the stored start instant (so the
underlying elapsed value returns to zero) but carries the previously
published label over until the first tick; each tick publishes the floor
of the elapsed seconds as zero-padded minutes and seconds with unbounded
minutes (elapsed 4205 s formats as "70:05"); and the elapsed value
underlying the published label is non-decreasing in time. -/
theorem timer_tick_format_monotone (s : ComponentState)
    (now st n1 n2 : Nat)
    (hst : s.recordingStartTime = some st) (h12 : n1 ≤ n2) :
    (startTimer now s).recordingStartTime = some now ∧
    (startTimer now s).timer = s.timer ∧
    (timerTick n1 s).timer = formatTimer ((n1 - st) / 1000) ∧
    (n1 - st) / 1000 ≤ (n2 - st) / 1000 ∧
    formatTimer 4205 = "70:05" := by
  refine ⟨rfl, rfl, ?_,
    Nat.div_le_div_right (Nat.sub_le_sub_right h12 st), by decide⟩
  unfold timerTick
  rw [hst]

/-- C5 amended witness: the tracker started at instant 2, ticking at
instants 3002 and 5002. -/
theorem timer_tick_format_monotone_witness :
    (startTimer 9 { initState with
      recordingStartTime := some 2 }).recordingStartTime = some 9 ∧
    (startTimer 9 { initState with recordingStartTime := some 2 }).timer =
      ({ initState with recordingStartTime := some 2 } : ComponentState).timer ∧
    (timerTick 3002 { initState with recordingStartTime := some 2 }).timer =
      formatTimer ((3002 - 2) / 1000) ∧
    (3002 - 2) / 1000 ≤ (5002 - 2) / 1000 ∧
    formatTimer 4205 = "70:05" :=
  timer_tick_format_monotone { initState with recordingStartTime := some 2 }
    9 2 3002 5002 rfl (by decide)

/-- C6 counterexample: stopTimer does not clear the stored start instant.
After a recording started at instant 5 is stopped, the start instant is
still 5, not cleared. -/
theorem stopTimer_retains_start_counterexample :
    (stopTimer (startRecording true none 5
      (startCamera (.ok 0) initState))).recordingStartTime = some 5 ∧
    some 5 ≠ (none : Option Nat) := by
  constructor
  · decide
  · decide

/-- C6 amended: stopTimer cancels the repeating tick (the interval handle
is absent afterwards) and is idempotent, but it leaves the stored start
instant exactly as it was. -/
theorem stopTimer_cancels_tick (s : ComponentState) :
    (stopTimer s).timerInterval = none ∧
    (stopTimer s).recordingStartTime = s.recordingStartTime ∧
    stopTimer (stopTimer s) = stopTimer s := by
  refine ⟨?_, ?_, ?_⟩ <;> simp [stopTimer_eq]

/-- C7 counterexample: startRecording performs no check for an active
RecordingSession.  From a state in which a recording (fallback-webm
encoder, one buffered fragment) is active, calling startRecording again
installs a different (fresh vp9) encoder and empties the fragment buffer,
contradicting "no new encoder is created and the existing recording is
unaffected". -/
theorem startRecording_no_guard_counterexample :
    recorderActive (ondataavailable [1, 2]
      (startRecording false none 0 (startCamera (.ok 0) initState))) = true ∧
    (startRecording true none 9 (ondataavailable [1, 2]
      (startRecording false none 0
        (startCamera (.ok 0) initState)))).mediaRecorder ≠
      (ondataavailable [1, 2]
        (startRecording false none 0
          (startCamera (.ok 0) initState))).mediaRecorder ∧
    (startRecording true none 9 (ondataavailable [1, 2]
      (startRecording false none 0
        (startCamera (.ok 0) initState)))).recordedChunks ≠
      (ondataavailable [1, 2]
        (startRecording false none 0
          (startCamera (.ok 0) initState))).recordedChunks := by
  refine ⟨by decide, by decide, by decide⟩

/-- C7 amended: startRecording's only guard is a set camera flag with a
held stream; it never raises an InvalidStateError for an active
RecordingSession.  Invoked while one is active (with encoder construction
succeeding) it empties the fragment buffer, discards the Artifact and
installs a freshly created encoder in the recording state. -/
theorem startRecording_replaces_encoder (vp9 : Bool) (now : Nat)
    (s : ComponentState) (hc : s.isCameraActive = true)
    (hs : s.mediaStream.isSome = true) (_hr : recorderActive s = true) :
    (startRecording vp9 none now s).recordedChunks = [] ∧
    (startRecording vp9 none now s).recordedBlob = none ∧
    (startRecording vp9 none now s).mediaRecorder =
      some ⟨.recording, mimeFor vp9⟩ ∧
    (startRecording vp9 none now s).isRecording = true := by
  rw [startRecording_success vp9 now hc hs]
  exact ⟨rfl, rfl, rfl, rfl⟩

/-- C7 amended witness: re-invocation while the fallback-webm recording
with one buffered fragment is active. -/
theorem startRecording_replaces_encoder_witness :
    (startRecording true none 9 (ondataavailable [1, 2]
      (startRecording false none 0
        (startCamera (.ok 0) initState)))).recordedChunks = [] ∧
    (startRecording true none 9 (ondataavailable [1, 2]
      (startRecording false none 0
        (startCamera (.ok 0) initState)))).recordedBlob = none ∧
    (startRecording true none 9 (ondataavailable [1, 2]
      (startRecording false none 0
        (startCamera (.ok 0) initState)))).mediaRecorder =
      some ⟨.recording, mimeFor true⟩ ∧
    (startRecording true none 9 (ondataavailable [1, 2]
      (startRecording false none 0
        (startCamera (.ok 0) initState)))).isRecording = true :=
  startRecording_replaces_encoder true 9 _ rfl rfl (by decide)

/-- C8 counterexample: downloadVideo does mutate an observable field:
with an Artifact present it overwrites the status message with the
downloaded notice, so "all other observable fields unchanged" fails on
the statusMessage component of the snapshot. -/
theorem download_mutates_status_counterexample :
    (downloadVideo "2024-01-01T00:00:00.000Z"
      (onstopHandler "video/webm" (stopRecording (ondataavailable [1]
        (startRecording false none 0
          (startCamera (.ok 0) initState)))))).2.status ≠
      (onstopHandler "video/webm" (stopRecording (ondataavailable [1]
        (startRecording false none 0
          (startCamera (.ok 0) initState))))).status := by
  decide

/-- C8 amended: with no Artifact downloadVideo is a no-op producing no
resource; with an Artifact it yields the filename
"presentation_" ++ sanitized timestamp ++ ".webm", changes nothing except
the status message (stream, recorder, chunk buffer, Artifact, projected
SessionState and hasArtifact all unchanged), and invoking it again
reproduces the same state. -/
theorem download_pure_except_status (s : ComponentState) (iso : String)
    (b : Blob) (hb : s.recordedBlob = some b) :
    (downloadVideo iso s).1 =
      some ("presentation_" ++ sanitizeTimestamp iso ++ ".webm") ∧
    (downloadVideo iso s).2 = { s with status := .videoDownloaded } ∧
    sessionState (downloadVideo iso s).2 = sessionState s ∧
    hasArtifact (downloadVideo iso s).2 = hasArtifact s ∧
    (downloadVideo iso (downloadVideo iso s).2).2 = (downloadVideo iso s).2 ∧
    downloadVideo iso { s with recordedBlob := none } =
      (none, { s with recordedBlob := none }) := by
  have hD : downloadVideo iso s =
      (some (downloadFilename iso), { s with status := .videoDownloaded }) := by
    unfold downloadVideo
    rw [hb]
  refine ⟨by rw [hD]; rfl, by rw [hD], ?_, ?_, ?_, ?_⟩
  · rw [hD]
    rfl
  · rw [hD]
    rfl
  · rw [hD]
    show (downloadVideo iso { s with status := .videoDownloaded }).2 = _
    simp [downloadVideo, hb]
  · unfold downloadVideo
    simp

/-- C8 amended witness: download from a state holding a one-byte webm
Artifact. -/
theorem download_pure_except_status_witness :
    (downloadVideo "2024-01-01T00:00:00.000Z"
      { initState with recordedBlob := some ⟨[1], "video/webm"⟩ }).1 =
      some ("presentation_" ++
        sanitizeTimestamp "2024-01-01T00:00:00.000Z" ++ ".webm") ∧
    (downloadVideo "2024-01-01T00:00:00.000Z"
      { initState with recordedBlob := some ⟨[1], "video/webm"⟩ }).2 =
      { ({ initState with recordedBlob := some ⟨[1], "video/webm"⟩ } :
          ComponentState) with status := .videoDownloaded } ∧
    sessionState (downloadVideo "2024-01-01T00:00:00.000Z"
      { initState with recordedBlob := some ⟨[1], "video/webm"⟩ }).2 =
      sessionState { initState with recordedBlob := some ⟨[1], "video/webm"⟩ } ∧
    hasArtifact (downloadVideo "2024-01-01T00:00:00.000Z"
      { initState with recordedBlob := some ⟨[1], "video/webm"⟩ }).2 =
      hasArtifact { initState with recordedBlob := some ⟨[1], "video/webm"⟩ } ∧
    (downloadVideo "2024-01-01T00:00:00.000Z"
      (downloadVideo "2024-01-01T00:00:00.000Z"
        { initState with recordedBlob := some ⟨[1], "video/webm"⟩ }).2).2 =
      (downloadVideo "2024-01-01T00:00:00.000Z"
        { initState with recordedBlob := some ⟨[1], "video/webm"⟩ }).2 ∧
    downloadVideo "2024-01-01T00:00:00.000Z"
      { ({ initState with recordedBlob := some ⟨[1], "video/webm"⟩ } :
          ComponentState) with recordedBlob := none } =
      (none, { ({ initState with recordedBlob := some ⟨[1], "video/webm"⟩ } :
          ComponentState) with recordedBlob := none }) :=
  download_pure_except_status
    { initState with recordedBlob := some ⟨[1], "video/webm"⟩ }
    "2024-01-01T00:00:00.000Z" ⟨[1], "video/webm"⟩ rfl

/-- C9: re-record from Recorded with the stream alive: the prior Artifact
is discarded and the fragment buffer emptied before the new recording
begins, the state goes straight to Recording, and hasArtifact stays false
through any fragment deliveries of the new recording, until a future stop
finalizes. -/
theorem rerecord_discards_artifact (vp9 : Bool) (now : Nat)
    (frags : List (List Nat)) (s : ComponentState)
    (hrecd : sessionState s = .Recorded) (hs : s.mediaStream.isSome = true) :
    (startRecording vp9 none now s).recordedBlob = none ∧
    (startRecording vp9 none now s).recordedChunks = [] ∧
    sessionState (startRecording vp9 none now s) = .Recording ∧
    hasArtifact (startRecording vp9 none now s) = false ∧
    hasArtifact (deliverAll frags (startRecording vp9 none now s)) = false ∧
    sessionState (deliverAll frags (startRecording vp9 none now s)) =
      .Recording := by
  have hc : s.isCameraActive = true := by
    unfold sessionState at hrecd
    by_cases hx : s.isRecording = true
    · rw [if_pos hx] at hrecd
      simp at hrecd
    · rw [if_neg hx] at hrecd
      by_cases hy : s.isCameraActive = true
      · exact hy
      · rw [if_neg hy] at hrecd
        simp at hrecd
  rw [startRecording_success vp9 now hc hs, deliverAll_eq]
  refine ⟨rfl, rfl, by simp [sessionState], by simp [hasArtifact], ?_, ?_⟩
  · simp [hasArtifact]
  · simp [sessionState]

/-- C9 witness: Scenario C — re-record after a completed one-fragment
recording. -/
theorem rerecord_discards_artifact_witness :
    (startRecording true none 9 (onstopHandler "video/webm"
      (stopRecording (ondataavailable [1] (startRecording false none 0
        (startCamera (.ok 0) initState)))))).recordedBlob = none ∧
    (startRecording true none 9 (onstopHandler "video/webm"
      (stopRecording (ondataavailable [1] (startRecording false none 0
        (startCamera (.ok 0) initState)))))).recordedChunks = [] ∧
    sessionState (startRecording true none 9 (onstopHandler "video/webm"
      (stopRecording (ondataavailable [1] (startRecording false none 0
        (startCamera (.ok 0) initState)))))) = .Recording ∧
    hasArtifact (startRecording true none 9 (onstopHandler "video/webm"
      (stopRecording (ondataavailable [1] (startRecording false none 0
        (startCamera (.ok 0) initState)))))) = false ∧
    hasArtifact (deliverAll [[7], []] (startRecording true none 9
      (onstopHandler "video/webm" (stopRecording (ondataavailable [1]
        (startRecording false none 0
          (startCamera (.ok 0) initState))))))) = false ∧
    sessionState (deliverAll [[7], []] (startRecording true none 9
      (onstopHandler "video/webm" (stopRecording (ondataavailable [1]
        (startRecording false none 0
          (startCamera (.ok 0) initState))))))) = .Recording :=
  rerecord_discards_artifact true 9 [[7], []] _ (by decide) (by decide)

/-- C10: the moment stopRecording returns — after any start / deliveries —
the recording flag is false and the tick interval cancelled, yet no
Artifact is present (startRecording cleared the previous one and the
finalize callback has not run); the Artifact appears only once the
asynchronous onstop callback fires. -/
theorem stop_gap_before_finalize (vp9 : Bool) (now : Nat) (mt : String)
    (frags : List (List Nat)) (s : ComponentState)
    (hc : s.isCameraActive = true) (hs : s.mediaStream.isSome = true) :
    (stopRecording (deliverAll frags
      (startRecording vp9 none now s))).isRecording = false ∧
    (stopRecording (deliverAll frags
      (startRecording vp9 none now s))).timerInterval = none ∧
    hasArtifact (stopRecording (deliverAll frags
      (startRecording vp9 none now s))) = false ∧
    hasArtifact (onstopHandler mt (stopRecording (deliverAll frags
      (startRecording vp9 none now s)))) = true := by
  rw [startRecording_success vp9 now hc hs, deliverAll_eq,
    stopRecording_eq_active (by rfl)]
  exact ⟨rfl, rfl, rfl, rfl⟩

/-- C10 witness: one fragment delivered between start and stop; the
Artifact is absent after stop and present after finalize. -/
theorem stop_gap_before_finalize_witness :
    (stopRecording (deliverAll [[1]] (startRecording true none 0
      (startCamera (.ok 0) initState)))).isRecording = false ∧
    (stopRecording (deliverAll [[1]] (startRecording true none 0
      (startCamera (.ok 0) initState)))).timerInterval = none ∧
    hasArtifact (stopRecording (deliverAll [[1]]
      (startRecording true none 0
        (startCamera (.ok 0) initState)))) = false ∧
    hasArtifact (onstopHandler (mimeFor true)
      (stopRecording (deliverAll [[1]] (startRecording true none 0
        (startCamera (.ok 0) initState))))) = true :=
  stop_gap_before_finalize true 0 (mimeFor true) [[1]]
    (startCamera (.ok 0) initState) rfl rfl

end PresentationRecorder
